import Mathlib

/-!
# Attendance-tracking backend: session/attendance lifecycle

Shallow embedding of the session/attendance lifecycle of the
`student_attandence` repository: the data model (`src/models/*.py`), the
controller operations (`src/controllers/student_controller.py`,
`teacher_controller.py`, `justification_controller.py`,
`session_controller.py`, `attendance_controller.py`) and the router-level
duplicate-active-session guard (`src/routers/teacher.py`).

The persistent store is modelled as lists of rows; SQL `select ... .first()`
becomes `List.find?`, `db.get(Model, pk)` becomes `List.find?` on the primary
key, and an ORM mutation plus commit becomes a by-primary-key replacement of
the row.  `datetime.utcnow()` is an external input threaded in as a `now : Int`
parameter (minutes granularity is irrelevant; any instant encoding works), and
autoincrement ids / random session codes are likewise parameters.
`fastapi.HTTPException` becomes an error value carrying the status code and
detail string.  Notification side effects are not modelled: no claim concerns
them, and in `TeacherController.validate_justification` the source builds the
notification from `attendance_record.student_id`, a field that
`src/models/attendance.py` does not define.
-/

/-- Enum `AttendanceStatus` from `src/models/enums.py` (file absent from the
checkout; members `PRESENT`, `ABSENT`, `EXCLUDED` are the ones used by the
controllers and named by spec section 3). -/
inductive AttendanceStatus where
  | PRESENT
  | ABSENT
  | EXCLUDED
deriving DecidableEq, Repr, BEq

/-- Enum `JustificationStatus` from `src/models/enums.py` (file absent from the
checkout; members `PENDING`, `APPROVED`, `REJECTED` are the ones used by the
controllers and named by spec section 3). -/
inductive JustificationStatus where
  | PENDING
  | APPROVED
  | REJECTED
deriving DecidableEq, Repr, BEq

/-- A raised `fastapi.HTTPException`: status code plus detail message. -/
structure HTTPError where
  status_code : Nat
  detail : String
deriving DecidableEq, Repr

/-- Model `Student` (`src/models/student.py`): only `id` and `user_id` are read by
the lifecycle code.  Ids are modelled as `Nat` throughout, following the
integer-keyed variant the spec fixes in section 9. -/
structure Student where
  id : Nat
  user_id : Nat
deriving DecidableEq, Repr

/-- Model `Enrollment` (`src/models/enrollement.py`). -/
structure Enrollment where
  id : Nat
  student_id : Nat
  module_id : Nat
  number_of_absences : Nat
  is_excluded : Bool
deriving DecidableEq, Repr

/-- The teacher-module assignment row.  `src/models/associations.py` declares
`TeacherModule (teacher_id, module_id)` (used by
`TeacherController.create_session`); the `TeacherModules` model with its own
primary key, imported by `StudentController.mark_attendance` from
`models/teacher_modules.py`, is absent from the checkout.
Modelled from the spec: spec section 3 gives `Session` a `teacher_module_id`
and section 4.2 resolves "the module via the session's teacher-module link",
so the row carries a primary key `id` besides the assignment pair. -/
structure TeacherModules where
  id : Nat
  teacher_id : Nat
  module_id : Nat
deriving DecidableEq, Repr

/-- Model `Session` (`src/models/session.py`), named `ClassSession` as in the
controllers' import alias.  `src/models/session.py` declares
`session_code, datetime, duration_minutes, id, is_active, created_at,
module_id, teacher_id`; `StudentController.mark_attendance` additionally reads
`teacher_module_id` (the incomplete migration the spec flags in section 9),
kept here as an `Option` that `create_session` leaves unset. -/
structure ClassSession where
  id : Nat
  session_code : String
  datetime : Int
  duration_minutes : Int
  is_active : Bool
  created_at : Int
  module_id : Nat
  teacher_id : Nat
  teacher_module_id : Option Nat
deriving DecidableEq, Repr

/-- Model `AttendanceRecord` (`src/models/attendance.py`). -/
structure AttendanceRecord where
  id : Nat
  status : AttendanceStatus
  created_at : Int
  session_id : Nat
  module_id : Nat
  enrollement_id : Nat
deriving DecidableEq, Repr

/-- Model `Justification` (`src/models/justification.py`).  `student_id` is a
non-optional column in the source model, but `StudentController.justify_absence`
never sets it, so it is `Option` here and left `none` on creation. -/
structure Justification where
  id : Nat
  comment : String
  file_url : Option String
  status : JustificationStatus
  created_at : Int
  validation_date : Option Int
  rejection_reason : Option String
  attendance_record_id : Nat
  student_id : Option Nat
  validator_id : Option Nat
deriving DecidableEq, Repr

/-- The persistent store: one list of rows per table of the lifecycle. -/
structure DB where
  students : List Student
  teacher_modules : List TeacherModules
  sessions : List ClassSession
  enrollments : List Enrollment
  attendance_records : List AttendanceRecord
  justifications : List Justification
deriving DecidableEq, Repr

/-- Embeds `StudentController.mark_attendance` (`src/controllers/student_controller.py`,
lines 63-150): resolve student, resolve session by code, reject closed
sessions, resolve the teacher-module link and the student's enrollment,
reject excluded enrollments, resolve the seeded attendance record, reject an
already-PRESENT record, otherwise set the record's status to PRESENT.
The source performs no validity-window / expiry check and never reads the
clock. -/
def markAttendance (db : DB) (student_id : Nat) (session_code : String) :
    Except HTTPError AttendanceRecord × DB :=
  match db.students.find? (fun s => s.id == student_id) with
  | none => (.error ⟨404, "Student with ID " ++ toString student_id ++ " not found"⟩, db)
  | some _student =>
  match db.sessions.find? (fun s => s.session_code == session_code) with
  | none => (.error ⟨404, "Invalid session code"⟩, db)
  | some session_obj =>
  if !session_obj.is_active then
    (.error ⟨400, "Session is closed. Cannot mark attendance."⟩, db)
  else
  match db.teacher_modules.find? (fun tm => session_obj.teacher_module_id == some tm.id) with
  | none => (.error ⟨404, "Module not found for this session"⟩, db)
  | some teacher_module =>
  match db.enrollments.find? (fun e =>
      e.student_id == student_id && e.module_id == teacher_module.module_id) with
  | none => (.error ⟨403, "You are not enrolled in this module"⟩, db)
  | some enrollment =>
  if enrollment.is_excluded then
    (.error ⟨403, "You are excluded from this module"⟩, db)
  else
  match db.attendance_records.find? (fun a =>
      a.session_id == session_obj.id && a.enrollement_id == enrollment.id) with
  | none => (.error ⟨404, "No attendance record found for this session"⟩, db)
  | some attendance =>
  if attendance.status == AttendanceStatus.PRESENT then
    (.error ⟨400, "Attendance already marked as present"⟩, db)
  else
    let updated := { attendance with status := AttendanceStatus.PRESENT }
    (.ok updated,
     { db with attendance_records :=
         db.attendance_records.map (fun r => if r.id == attendance.id then updated else r) })

/-- Embeds `TeacherController.create_session` (`src/controllers/teacher_controller.py`,
lines 41-75): check the teacher-module assignment, then insert a new active
session stamped with the current time.  The fresh primary key `new_id`, the
generated `new_code` (`_generate_session_code`) and the clock `now` are
external inputs.  No attendance records are created here. -/
def createSession (db : DB) (teacher_id module_id : Nat) (duration_minutes : Int)
    (now : Int) (new_code : String) (new_id : Nat) :
    Except HTTPError ClassSession × DB :=
  match db.teacher_modules.find? (fun tm =>
      tm.teacher_id == teacher_id && tm.module_id == module_id) with
  | none => (.error ⟨403, "Teacher is not assigned to this module"⟩, db)
  | some _assignment =>
    let session : ClassSession :=
      { id := new_id, session_code := new_code, datetime := now,
        duration_minutes := duration_minutes, is_active := true, created_at := now,
        module_id := module_id, teacher_id := teacher_id, teacher_module_id := none }
    (.ok session, { db with sessions := db.sessions ++ [session] })

/-- The `POST /teachers/sessions` handler `create_class_session`
(`src/routers/teacher.py`, lines 22-64): reject with a 400 when the teacher
already has any active session, otherwise delegate to
`TeacherController.create_session`. -/
def createClassSessionRoute (db : DB) (teacher_profile_id module_id : Nat)
    (duration_minutes : Int) (now : Int) (new_code : String) (new_id : Nat) :
    Except HTTPError ClassSession × DB :=
  let active_sessions := db.sessions.filter (fun s =>
    s.teacher_id == teacher_profile_id && s.is_active)
  if !active_sessions.isEmpty then
    (.error ⟨400, "You already have an active session."⟩, db)
  else
    createSession db teacher_profile_id module_id duration_minutes now new_code new_id

/-- Embeds `TeacherController.close_session` (`src/controllers/teacher_controller.py`,
lines 214-234): resolve the session, check ownership, set `is_active := false`
unconditionally (no check of the previous value). -/
def closeSession (db : DB) (teacher_id : Nat) (session_id : Nat) :
    Except HTTPError ClassSession × DB :=
  match db.sessions.find? (fun s => s.id == session_id) with
  | none => (.error ⟨404, "Session not found"⟩, db)
  | some session =>
  if !(session.teacher_id == teacher_id) then
    (.error ⟨403, "Not authorized to close this session"⟩, db)
  else
    let closed := { session with is_active := false }
    (.ok closed,
     { db with sessions := db.sessions.map (fun x => if x.id == session.id then closed else x) })

/-- Embeds `TeacherController.validate_justification`
(`src/controllers/teacher_controller.py`, lines 82-147): resolve the
justification, its attendance record and its session, check the session's
teacher; on `"approve"` set the justification APPROVED and the attendance
record EXCLUDED, on `"reject"` set it REJECTED and store the reason, reject
any other decision string; both successful branches stamp `validation_date`
and `validator_id`.  There is no check of the justification's previous
status.  (The source's notification side effect is not modelled, see the
file comment.) -/
def validateJustification (db : DB) (teacher_id : Nat) (justification_id : Nat)
    (decision : String) (reason : Option String) (now : Int) :
    Except HTTPError Justification × DB :=
  match db.justifications.find? (fun j => j.id == justification_id) with
  | none => (.error ⟨404, "Justification not found"⟩, db)
  | some justification =>
  match db.attendance_records.find? (fun a => a.id == justification.attendance_record_id) with
  | none => (.error ⟨404, "Attendance record not found"⟩, db)
  | some attendance_record =>
  match db.sessions.find? (fun s => s.id == attendance_record.session_id) with
  | none => (.error ⟨403, "Not authorized to validate this justification"⟩, db)
  | some session =>
  if !(session.teacher_id == teacher_id) then
    (.error ⟨403, "Not authorized to validate this justification"⟩, db)
  else
  if decision == "approve" then
    let j := { justification with
               status := JustificationStatus.APPROVED,
               validation_date := some now, validator_id := some teacher_id }
    let ar := { attendance_record with status := AttendanceStatus.EXCLUDED }
    (.ok j,
     { db with
        justifications :=
          db.justifications.map (fun x => if x.id == justification.id then j else x),
        attendance_records :=
          db.attendance_records.map (fun x => if x.id == attendance_record.id then ar else x) })
  else if decision == "reject" then
    let j := { justification with
               status := JustificationStatus.REJECTED,
               rejection_reason := reason,
               validation_date := some now, validator_id := some teacher_id }
    (.ok j,
     { db with justifications :=
         db.justifications.map (fun x => if x.id == justification.id then j else x) })
  else
    (.error ⟨400, "Invalid decision. Must be 'approve' or 'reject'"⟩, db)

/-- Embeds `JustificationController.approve_justification`
(`src/controllers/justification_controller.py`, lines 47-74): resolve the
justification (`BaseController.get`, 404 on absence), reject with a 400 when
its status is not PENDING, otherwise set it APPROVED with `validator_id` and
`validation_date`, and set the linked attendance record (when it exists)
EXCLUDED. -/
def approveJustification (db : DB) (justification_id validator_id : Nat) (now : Int) :
    Except HTTPError Justification × DB :=
  match db.justifications.find? (fun j => j.id == justification_id) with
  | none => (.error ⟨404, "Justification not found"⟩, db)
  | some justification =>
  if !(justification.status == JustificationStatus.PENDING) then
    (.error ⟨400, "Justification is not pending"⟩, db)
  else
    let j := { justification with
               status := JustificationStatus.APPROVED,
               validator_id := some validator_id, validation_date := some now }
    let recs :=
      match db.attendance_records.find? (fun a => a.id == justification.attendance_record_id) with
      | some attendance =>
          db.attendance_records.map (fun x =>
            if x.id == attendance.id then { attendance with status := AttendanceStatus.EXCLUDED } else x)
      | none => db.attendance_records
    (.ok j,
     { db with
        justifications :=
          db.justifications.map (fun x => if x.id == justification.id then j else x),
        attendance_records := recs })

/-- Embeds `JustificationController.reject_justification`
(`src/controllers/justification_controller.py`, lines 76-95): resolve the
justification, reject with a 400 when its status is not PENDING, otherwise
set it REJECTED with `validator_id`, `validation_date` and the
`rejection_reason`; the attendance record is untouched. -/
def rejectJustification (db : DB) (justification_id validator_id : Nat)
    (reason : String) (now : Int) :
    Except HTTPError Justification × DB :=
  match db.justifications.find? (fun j => j.id == justification_id) with
  | none => (.error ⟨404, "Justification not found"⟩, db)
  | some justification =>
  if !(justification.status == JustificationStatus.PENDING) then
    (.error ⟨400, "Justification is not pending"⟩, db)
  else
    let j := { justification with
               status := JustificationStatus.REJECTED,
               validator_id := some validator_id, validation_date := some now,
               rejection_reason := some reason }
    (.ok j,
     { db with justifications :=
         db.justifications.map (fun x => if x.id == justification.id then j else x) })

/-- Embeds `StudentController.justify_absence` (`src/controllers/student_controller.py`,
lines 241-318): resolve student and attendance record, check the record's
enrollment belongs to the student, require status ABSENT, require that no
justification exists for the record yet, then insert a new PENDING
justification.  The attendance record itself is never written.  (The
notification side effect is not modelled, see the file comment.) -/
def justifyAbsence (db : DB) (student_id : Nat) (attendance_record_id : Nat)
    (comment : String) (file_url : Option String) (now : Int) (new_id : Nat) :
    Except HTTPError Justification × DB :=
  match db.students.find? (fun s => s.id == student_id) with
  | none => (.error ⟨404, "Student with ID " ++ toString student_id ++ " not found"⟩, db)
  | some _student =>
  match db.attendance_records.find? (fun a => a.id == attendance_record_id) with
  | none =>
      (.error ⟨404, "Attendance record with ID " ++ toString attendance_record_id ++ " not found"⟩, db)
  | some attendance =>
  match db.enrollments.find? (fun e => e.id == attendance.enrollement_id) with
  | none => (.error ⟨403, "This attendance record does not belong to you"⟩, db)
  | some enrollment =>
  if !(enrollment.student_id == student_id) then
    (.error ⟨403, "This attendance record does not belong to you"⟩, db)
  else
  if !(attendance.status == AttendanceStatus.ABSENT) then
    (.error ⟨400, "Can only justify absences"⟩, db)
  else
  match db.justifications.find? (fun j => j.attendance_record_id == attendance_record_id) with
  | some _existing => (.error ⟨400, "A justification already exists for this absence"⟩, db)
  | none =>
    let justification : Justification :=
      { id := new_id, comment := comment, file_url := file_url,
        status := JustificationStatus.PENDING, created_at := now,
        validation_date := none, rejection_reason := none,
        attendance_record_id := attendance_record_id,
        student_id := none, validator_id := none }
    (.ok justification, { db with justifications := db.justifications ++ [justification] })

/-- Embeds Python's `round(x, 2)` as exact rational rounding of the hundredths
digit, half to even (Python's tie rule).  Python computes on binary floats,
which agrees with exact rational rounding except where the float
representation shifts a value across a tie; no claim's instance is a tie. -/
def roundHalfEven (q : ℚ) : ℤ :=
  let f : ℤ := ⌊q⌋
  if q - f < 1 / 2 then f
  else if q - f > 1 / 2 then f + 1
  else if 2 ∣ f then f else f + 1

/-- Python `round(x, 2)` over exact rationals: round `100 * x` to an integer, half to
even, and divide back. -/
def roundTo2 (q : ℚ) : ℚ := (roundHalfEven (q * 100) : ℚ) / 100

/-- The statistics dictionary of
`AttendanceController.get_attendance_summary`
(`src/controllers/attendance_controller.py`, lines 107-145), in the
no-filters case where the query returns every attendance record: counts per
status over the records, and
`attendance_rate = round(present / total * 100, 2)` with `0` when there are
no records.  `total_records` counts every record, the EXCLUDED ones
included. -/
structure SummaryStats where
  total_records : Nat
  present : Nat
  absent : Nat
  excluded : Nat
  attendance_rate : ℚ
deriving DecidableEq, Repr

/-- Embeds `AttendanceController.get_attendance_summary` with no filters. -/
def getAttendanceSummary (db : DB) : SummaryStats :=
  let attendance_records := db.attendance_records
  let total := attendance_records.length
  let present := (attendance_records.filter (fun r => r.status == AttendanceStatus.PRESENT)).length
  let absent := (attendance_records.filter (fun r => r.status == AttendanceStatus.ABSENT)).length
  let excluded := (attendance_records.filter (fun r => r.status == AttendanceStatus.EXCLUDED)).length
  { total_records := total, present := present, absent := absent, excluded := excluded,
    attendance_rate := if total > 0 then roundTo2 ((present : ℚ) / (total : ℚ) * 100) else 0 }

/-- The summary dictionary of
`SessionController.get_session_attendance_summary`
(`src/controllers/session_controller.py`, lines 104-127), without the echoed
`session` object: counts over the session's attendance records and the same
rate formula (`total_students` in the denominator, EXCLUDED included). -/
structure SessionSummary where
  total_students : Nat
  present : Nat
  absent : Nat
  excluded : Nat
  attendance_rate : ℚ
deriving DecidableEq, Repr

/-- Embeds `SessionController.get_session_attendance_summary`: `BaseController.get`
404s when the session does not exist, then the counts are taken over the
records with this `session_id`. -/
def getSessionAttendanceSummary (db : DB) (session_id : Nat) :
    Except HTTPError SessionSummary :=
  match db.sessions.find? (fun s => s.id == session_id) with
  | none => .error ⟨404, "Session not found"⟩
  | some _session =>
    let attendance_records := db.attendance_records.filter (fun r => r.session_id == session_id)
    let total_students := attendance_records.length
    let present := (attendance_records.filter (fun r => r.status == AttendanceStatus.PRESENT)).length
    let absent := (attendance_records.filter (fun r => r.status == AttendanceStatus.ABSENT)).length
    let excluded := (attendance_records.filter (fun r => r.status == AttendanceStatus.EXCLUDED)).length
    .ok { total_students := total_students, present := present, absent := absent,
          excluded := excluded,
          attendance_rate :=
            if total_students > 0 then roundTo2 ((present : ℚ) / (total_students : ℚ) * 100) else 0 }

/-! ## Concrete states used by the witnesses and counterexamples -/

/-- A student (profile id 5, user id 50). -/
def exStudent : Student := { id := 5, user_id := 50 }

/-- Teacher 7 is assigned to module 2 through teacher-module row 1. -/
def exTM : TeacherModules := { id := 1, teacher_id := 7, module_id := 2 }

/-- An active session of module 2 by teacher 7, starting at time 0 with a
60-minute window, shared under the code `ABC123`. -/
def exSession : ClassSession :=
  { id := 1, session_code := "ABC123", datetime := 0, duration_minutes := 60,
    is_active := true, created_at := 0, module_id := 2, teacher_id := 7,
    teacher_module_id := some 1 }

/-- Student 5 is enrolled in module 2 and not excluded. -/
def exEnrollment : Enrollment :=
  { id := 1, student_id := 5, module_id := 2, number_of_absences := 0, is_excluded := false }

/-- The seeded ABSENT attendance record of enrollment 1 in session 1. -/
def exRecord : AttendanceRecord :=
  { id := 1, status := AttendanceStatus.ABSENT, created_at := 0,
    session_id := 1, module_id := 2, enrollement_id := 1 }

/-- Base state: one student, one teacher-module assignment, one active
session, one enrollment, one seeded ABSENT record, no justifications. -/
def exDB : DB :=
  { students := [exStudent], teacher_modules := [exTM], sessions := [exSession],
    enrollments := [exEnrollment], attendance_records := [exRecord], justifications := [] }

/-- Like `exDB` but the record is already EXCLUDED (a forgiven absence). -/
def exDBExcluded : DB :=
  { exDB with attendance_records := [{ exRecord with status := AttendanceStatus.EXCLUDED }] }

/-- Like `exDB` but the session is already closed. -/
def exDBClosed : DB :=
  { exDB with sessions := [{ exSession with is_active := false }] }

/-- A pending justification for attendance record 1. -/
def exJust : Justification :=
  { id := 1, comment := "sick", file_url := none, status := JustificationStatus.PENDING,
    created_at := 0, validation_date := none, rejection_reason := none,
    attendance_record_id := 1, student_id := some 5, validator_id := none }

/-- Base state plus the pending justification `exJust`. -/
def exDBPending : DB := { exDB with justifications := [exJust] }

/-- A state after a first approve decision: the justification is APPROVED
(stamped by teacher 7 at time 10) and the record is EXCLUDED. -/
def exDBDecided : DB :=
  { exDB with
    attendance_records := [{ exRecord with status := AttendanceStatus.EXCLUDED }],
    justifications := [{ exJust with
                         status := JustificationStatus.APPROVED,
                         validation_date := some 10, validator_id := some 7 }] }

/-- A state with no session yet: used to exercise `createSession` directly. -/
def exDBNoSession : DB :=
  { students := [exStudent], teacher_modules := [exTM], sessions := [],
    enrollments := [exEnrollment], attendance_records := [], justifications := [] }

/-- A session-1 roster of four records with statuses PRESENT, PRESENT,
ABSENT, EXCLUDED, for the statistics claims. -/
def exDBStats : DB :=
  { students := [exStudent], teacher_modules := [exTM], sessions := [exSession],
    enrollments := [exEnrollment],
    attendance_records :=
      [{ id := 1, status := AttendanceStatus.PRESENT, created_at := 0,
         session_id := 1, module_id := 2, enrollement_id := 1 },
       { id := 2, status := AttendanceStatus.PRESENT, created_at := 0,
         session_id := 1, module_id := 2, enrollement_id := 2 },
       { id := 3, status := AttendanceStatus.ABSENT, created_at := 0,
         session_id := 1, module_id := 2, enrollement_id := 3 },
       { id := 4, status := AttendanceStatus.EXCLUDED, created_at := 0,
         session_id := 1, module_id := 2, enrollement_id := 4 }],
    justifications := [] }

/-- A state with no attendance records at all. -/
def exDBEmpty : DB :=
  { students := [], teacher_modules := [], sessions := [], enrollments := [],
    attendance_records := [], justifications := [] }

/-! ## Helper lemmas -/

/-- A `find?` that hit `a` still hits the image of `a` after a map that fixes
every element not matched by the predicate and keeps `f a` matching. -/
theorem find?_map_frame {α : Type} (p : α → Bool) (f : α → α) (a : α)
    (hpa : p (f a) = true) :
    ∀ l : List α, l.find? p = some a →
      (∀ x ∈ l, p x = false → f x = x) →
      (l.map f).find? p = some (f a) := by
  intro l
  induction l with
  | nil => intro h _; simp at h
  | cons b t ih =>
    intro h hframe
    by_cases hpb : p b = true
    · rw [List.find?_cons_of_pos _ hpb] at h
      injection h with hba
      subst hba
      simpa [List.map_cons] using List.find?_cons_of_pos (t.map f) hpa
    · have hpb' : p b = false := by simpa using hpb
      rw [List.find?_cons_of_neg _ (by simp [hpb'])] at h
      have hfb : f b = b := hframe b (List.mem_cons_self b t) hpb'
      have hstep : ((b :: t).map f).find? p = (t.map f).find? p := by
        rw [List.map_cons, hfb, List.find?_cons_of_neg _ (by simp [hpb'])]
      rw [hstep]
      exact ih h (fun x hx hpx => hframe x (List.mem_cons_of_mem _ hx) hpx)

/-- Mapping a function that fixes every member of a list is the identity. -/
theorem map_eq_self_of_fix {α : Type} (f : α → α) (l : List α)
    (h : ∀ x ∈ l, f x = x) : l.map f = l := by
  calc l.map f = l.map id := List.map_congr_left h
  _ = l := List.map_id l

/-- Successful path of `markAttendance`: when every lookup succeeds, the
session is active, the enrollment is not excluded and the record is not
already PRESENT, the record is set PRESENT and everything else is left
alone.  (Shared by several claims.) -/
theorem markAttendance_ok (db : DB) (sid : Nat) (code : String)
    (st : Student) (s : ClassSession) (tm : TeacherModules) (e : Enrollment)
    (a : AttendanceRecord)
    (h1 : db.students.find? (fun x => x.id == sid) = some st)
    (h2 : db.sessions.find? (fun x => x.session_code == code) = some s)
    (h3 : s.is_active = true)
    (h4 : db.teacher_modules.find? (fun x => s.teacher_module_id == some x.id) = some tm)
    (h5 : db.enrollments.find? (fun x => x.student_id == sid && x.module_id == tm.module_id) = some e)
    (h6 : e.is_excluded = false)
    (h7 : db.attendance_records.find? (fun x => x.session_id == s.id && x.enrollement_id == e.id) = some a)
    (h8 : (a.status == AttendanceStatus.PRESENT) = false) :
    markAttendance db sid code =
      (.ok { a with status := AttendanceStatus.PRESENT },
       { db with attendance_records :=
           db.attendance_records.map (fun r =>
             if r.id == a.id then { a with status := AttendanceStatus.PRESENT } else r) }) := by
  simp [markAttendance, h1, h2, h3, h4, h5, h6, h7, h8]

/-! ## Claim theorems -/

/-- C1, counterexample: in the state `exDB` the session's validity window
(start 0, 60 minutes) has elapsed at time 61 while `is_active` is still
true, yet `markAttendance` does not fail with BadRequest "session expired" —
it succeeds and sets the record PRESENT, and the stored record changes. -/
theorem mark_attendance_expired_succeeds_cex :
    exSession.datetime + exSession.duration_minutes < 61 ∧
    exSession.is_active = true ∧
    markAttendance exDB 5 "ABC123" =
      (.ok { exRecord with status := AttendanceStatus.PRESENT },
       { exDB with attendance_records := [{ exRecord with status := AttendanceStatus.PRESENT }] }) :=
  ⟨by decide, rfl, rfl⟩

/-- C1, amended: `StudentController.mark_attendance` performs no
validity-window check at all.  Whenever the resolved session is still
`is_active` — even at any instant `now` strictly past
`datetime + duration_minutes` — a mark by an enrolled, non-excluded student
on a not-yet-PRESENT record succeeds and sets the record PRESENT; the only
session-state failure the code can produce is BadRequest "Session is closed."
once `is_active` is false. -/
theorem mark_attendance_no_expiry_check
    (db : DB) (sid : Nat) (code : String) (now : Int)
    (st : Student) (s : ClassSession) (tm : TeacherModules) (e : Enrollment)
    (a : AttendanceRecord)
    (h1 : db.students.find? (fun x => x.id == sid) = some st)
    (h2 : db.sessions.find? (fun x => x.session_code == code) = some s)
    (h3 : s.is_active = true)
    (hexpired : s.datetime + s.duration_minutes < now)
    (h4 : db.teacher_modules.find? (fun x => s.teacher_module_id == some x.id) = some tm)
    (h5 : db.enrollments.find? (fun x => x.student_id == sid && x.module_id == tm.module_id) = some e)
    (h6 : e.is_excluded = false)
    (h7 : db.attendance_records.find? (fun x => x.session_id == s.id && x.enrollement_id == e.id) = some a)
    (h8 : (a.status == AttendanceStatus.PRESENT) = false) :
    markAttendance db sid code =
      (.ok { a with status := AttendanceStatus.PRESENT },
       { db with attendance_records :=
           db.attendance_records.map (fun r =>
             if r.id == a.id then { a with status := AttendanceStatus.PRESENT } else r) }) :=
  markAttendance_ok db sid code st s tm e a h1 h2 h3 h4 h5 h6 h7 h8

/-- Witness for the amended C1 at the concrete state `exDB` and `now = 61`. -/
theorem mark_attendance_no_expiry_check_witness :
    markAttendance exDB 5 "ABC123" =
      (.ok { exRecord with status := AttendanceStatus.PRESENT },
       { exDB with attendance_records := [{ exRecord with status := AttendanceStatus.PRESENT }] }) := by
  have h := mark_attendance_no_expiry_check exDB 5 "ABC123" 61
    exStudent exSession exTM exEnrollment exRecord
    rfl rfl rfl (by decide) rfl rfl rfl rfl rfl
  simpa using h

/-- Already-PRESENT path of `markAttendance`: when every lookup succeeds and
the session is active but the record is already PRESENT, the call fails with
BadRequest and returns the store unchanged.  (Shared helper.) -/
theorem markAttendance_already_present (db : DB) (sid : Nat) (code : String)
    (st : Student) (s : ClassSession) (tm : TeacherModules) (e : Enrollment)
    (a : AttendanceRecord)
    (h1 : db.students.find? (fun x => x.id == sid) = some st)
    (h2 : db.sessions.find? (fun x => x.session_code == code) = some s)
    (h3 : s.is_active = true)
    (h4 : db.teacher_modules.find? (fun x => s.teacher_module_id == some x.id) = some tm)
    (h5 : db.enrollments.find? (fun x => x.student_id == sid && x.module_id == tm.module_id) = some e)
    (h6 : e.is_excluded = false)
    (h7 : db.attendance_records.find? (fun x => x.session_id == s.id && x.enrollement_id == e.id) = some a)
    (h8 : (a.status == AttendanceStatus.PRESENT) = true) :
    markAttendance db sid code =
      (.error ⟨400, "Attendance already marked as present"⟩, db) := by
  simp [markAttendance, h1, h2, h3, h4, h5, h6, h7, h8]

/-- C5 (confirmed): `mark_present` is not idempotent.  For a student with a
seeded ABSENT record in an active session whose window has not elapsed
(record primary keys assumed unique, as in any SQL store), the first
`markAttendance` succeeds and sets the record PRESENT, and a second identical
call fails with BadRequest "Attendance already marked as present" and leaves
the state untouched — so every subsequent call fails the same way. -/
theorem mark_present_not_idempotent
    (db : DB) (sid : Nat) (code : String) (now : Int)
    (st : Student) (s : ClassSession) (tm : TeacherModules) (e : Enrollment)
    (a : AttendanceRecord)
    (h1 : db.students.find? (fun x => x.id == sid) = some st)
    (h2 : db.sessions.find? (fun x => x.session_code == code) = some s)
    (h3 : s.is_active = true)
    (hwin : now ≤ s.datetime + s.duration_minutes)
    (h4 : db.teacher_modules.find? (fun x => s.teacher_module_id == some x.id) = some tm)
    (h5 : db.enrollments.find? (fun x => x.student_id == sid && x.module_id == tm.module_id) = some e)
    (h6 : e.is_excluded = false)
    (h7 : db.attendance_records.find? (fun x => x.session_id == s.id && x.enrollement_id == e.id) = some a)
    (habs : a.status = AttendanceStatus.ABSENT)
    (huniq : ∀ r ∈ db.attendance_records, r.id = a.id → r = a) :
    markAttendance db sid code =
      (.ok { a with status := AttendanceStatus.PRESENT },
       { db with attendance_records :=
           db.attendance_records.map (fun r =>
             if r.id == a.id then { a with status := AttendanceStatus.PRESENT } else r) }) ∧
    markAttendance
        { db with attendance_records :=
            db.attendance_records.map (fun r =>
              if r.id == a.id then { a with status := AttendanceStatus.PRESENT } else r) }
        sid code =
      (.error ⟨400, "Attendance already marked as present"⟩,
       { db with attendance_records :=
           db.attendance_records.map (fun r =>
             if r.id == a.id then { a with status := AttendanceStatus.PRESENT } else r) }) := by
  have h8 : (a.status == AttendanceStatus.PRESENT) = false := by rw [habs]; rfl
  refine ⟨markAttendance_ok db sid code st s tm e a h1 h2 h3 h4 h5 h6 h7 h8, ?_⟩
  have hpa : (fun x : AttendanceRecord => x.session_id == s.id && x.enrollement_id == e.id)
      ((fun r : AttendanceRecord =>
        if r.id == a.id then { a with status := AttendanceStatus.PRESENT } else r) a) = true := by
    have := List.find?_some h7
    simpa using this
  have hframe : ∀ x ∈ db.attendance_records,
      (fun x : AttendanceRecord => x.session_id == s.id && x.enrollement_id == e.id) x = false →
      (fun r : AttendanceRecord =>
        if r.id == a.id then { a with status := AttendanceStatus.PRESENT } else r) x = x := by
    intro x hx hpx
    by_cases hid : x.id = a.id
    · have hxa : x = a := huniq x hx hid
      subst hxa
      have := List.find?_some h7
      simp only [this] at hpx
      exact absurd hpx (by simp)
    · simp [hid]
  have hfind2 := find?_map_frame
    (fun x : AttendanceRecord => x.session_id == s.id && x.enrollement_id == e.id)
    (fun r : AttendanceRecord =>
      if r.id == a.id then { a with status := AttendanceStatus.PRESENT } else r)
    a hpa db.attendance_records h7 hframe
  simp only [beq_self_eq_true, if_true] at hfind2
  exact markAttendance_already_present _ sid code st s tm e _ h1 h2 h3 h4 h5 h6 hfind2 rfl

/-- Witness for C5 at the concrete state `exDB` and `now = 30` (inside the
window): one success, then BadRequest. -/
theorem mark_present_not_idempotent_witness :
    markAttendance exDB 5 "ABC123" =
      (.ok { exRecord with status := AttendanceStatus.PRESENT },
       { exDB with attendance_records := [{ exRecord with status := AttendanceStatus.PRESENT }] }) ∧
    markAttendance
        { exDB with attendance_records := [{ exRecord with status := AttendanceStatus.PRESENT }] }
        5 "ABC123" =
      (.error ⟨400, "Attendance already marked as present"⟩,
       { exDB with attendance_records := [{ exRecord with status := AttendanceStatus.PRESENT }] }) := by
  have h := mark_present_not_idempotent exDB 5 "ABC123" 30
    exStudent exSession exTM exEnrollment exRecord
    rfl rfl rfl (by decide) rfl rfl rfl rfl rfl (by decide)
  simpa using h

/-- C9 (confirmed): `mark_attendance` rejects only records already PRESENT;
a record whose status is EXCLUDED (the state after an approved
justification) is silently overwritten back to PRESENT by a mark on an
active session by an enrolled, non-excluded student. -/
theorem mark_attendance_overwrites_excluded
    (db : DB) (sid : Nat) (code : String)
    (st : Student) (s : ClassSession) (tm : TeacherModules) (e : Enrollment)
    (a : AttendanceRecord)
    (h1 : db.students.find? (fun x => x.id == sid) = some st)
    (h2 : db.sessions.find? (fun x => x.session_code == code) = some s)
    (h3 : s.is_active = true)
    (h4 : db.teacher_modules.find? (fun x => s.teacher_module_id == some x.id) = some tm)
    (h5 : db.enrollments.find? (fun x => x.student_id == sid && x.module_id == tm.module_id) = some e)
    (h6 : e.is_excluded = false)
    (h7 : db.attendance_records.find? (fun x => x.session_id == s.id && x.enrollement_id == e.id) = some a)
    (hexcl : a.status = AttendanceStatus.EXCLUDED) :
    markAttendance db sid code =
      (.ok { a with status := AttendanceStatus.PRESENT },
       { db with attendance_records :=
           db.attendance_records.map (fun r =>
             if r.id == a.id then { a with status := AttendanceStatus.PRESENT } else r) }) :=
  markAttendance_ok db sid code st s tm e a h1 h2 h3 h4 h5 h6 h7 (by rw [hexcl]; rfl)

/-- Witness for C9 at the concrete state `exDBExcluded`: the EXCLUDED record
of enrollment 1 in active session 1 is overwritten to PRESENT. -/
theorem mark_attendance_overwrites_excluded_witness :
    markAttendance exDBExcluded 5 "ABC123" =
      (.ok { exRecord with status := AttendanceStatus.PRESENT },
       { exDBExcluded with
         attendance_records := [{ exRecord with status := AttendanceStatus.PRESENT }] }) := by
  have h := mark_attendance_overwrites_excluded exDBExcluded 5 "ABC123"
    exStudent exSession exTM exEnrollment { exRecord with status := AttendanceStatus.EXCLUDED }
    rfl rfl rfl rfl rfl rfl rfl rfl
  simpa using h

/-- C8 (confirmed): `close_session` is idempotent.  On a session owned by the
calling teacher whose `is_active` is already false (session primary keys
assumed unique, as in any SQL store), the call succeeds, returns the session
with every field as it was — `is_active` still false — and leaves the store
unchanged. -/
theorem close_session_idempotent
    (db : DB) (tid sid : Nat) (s : ClassSession)
    (hfind : db.sessions.find? (fun x => x.id == sid) = some s)
    (hauth : (s.teacher_id == tid) = true)
    (hclosed : s.is_active = false)
    (huniq : ∀ t ∈ db.sessions, t.id = s.id → t = s) :
    closeSession db tid sid = (.ok s, db) := by
  have hs : { s with is_active := false } = s := by
    cases s
    simp_all
  have hmap : db.sessions.map (fun x => if x.id = s.id then s else x) = db.sessions := by
    apply map_eq_self_of_fix
    intro x hx
    by_cases hid : x.id = s.id
    · simp [hid, (huniq x hx hid).symm]
    · simp [hid]
  simp [closeSession, hfind, hauth, hs, hmap]

/-- Witness for C8 at the concrete state `exDBClosed`, whose only session is
already closed: closing it again succeeds and changes nothing. -/
theorem close_session_idempotent_witness :
    closeSession exDBClosed 7 1 = (.ok { exSession with is_active := false }, exDBClosed) :=
  close_session_idempotent exDBClosed 7 1 { exSession with is_active := false }
    rfl rfl rfl (by decide)

/-- C4 (confirmed): a successful `validate_justification` on a pending
justification whose linked ABSENT record belongs to a session of the calling
teacher behaves per decision.  "approve": the justification becomes APPROVED
and the linked attendance record becomes EXCLUDED.  "reject": the
justification becomes REJECTED with the rejection reason stored and the
attendance records are untouched (the linked one stays ABSENT).  Both
branches stamp `validation_date := now` and `validator_id`. -/
theorem validate_justification_on_pending
    (db : DB) (tid jid : Nat) (reason : Option String) (now : Int)
    (j : Justification) (ar : AttendanceRecord) (s : ClassSession)
    (hj : db.justifications.find? (fun x => x.id == jid) = some j)
    (hpending : j.status = JustificationStatus.PENDING)
    (har : db.attendance_records.find? (fun x => x.id == j.attendance_record_id) = some ar)
    (habs : ar.status = AttendanceStatus.ABSENT)
    (hs : db.sessions.find? (fun x => x.id == ar.session_id) = some s)
    (hauth : (s.teacher_id == tid) = true) :
    validateJustification db tid jid "approve" reason now =
      (.ok { j with
             status := JustificationStatus.APPROVED,
             validation_date := some now, validator_id := some tid },
       { db with
          justifications := db.justifications.map (fun x =>
            if x.id == j.id then
              { j with
                status := JustificationStatus.APPROVED,
                validation_date := some now, validator_id := some tid }
            else x),
          attendance_records := db.attendance_records.map (fun x =>
            if x.id == ar.id then { ar with status := AttendanceStatus.EXCLUDED } else x) }) ∧
    validateJustification db tid jid "reject" reason now =
      (.ok { j with
             status := JustificationStatus.REJECTED, rejection_reason := reason,
             validation_date := some now, validator_id := some tid },
       { db with
          justifications := db.justifications.map (fun x =>
            if x.id == j.id then
              { j with
                status := JustificationStatus.REJECTED, rejection_reason := reason,
                validation_date := some now, validator_id := some tid }
            else x) }) ∧
    (validateJustification db tid jid "reject" reason now).2.attendance_records =
      db.attendance_records := by
  have hra : (("reject" : String) == "approve") = false := rfl
  refine ⟨?_, ?_, ?_⟩ <;>
    simp [validateJustification, hj, har, hs, hauth, hra]

/-- Witness for C4 at the concrete state `exDBPending` (pending
justification 1 on the ABSENT record of teacher 7's session), decided by
teacher 7 at time 10 with reason "late". -/
theorem validate_justification_on_pending_witness :
    validateJustification exDBPending 7 1 "approve" (some "late") 10 =
      (.ok { exJust with
             status := JustificationStatus.APPROVED,
             validation_date := some 10, validator_id := some 7 },
       { exDBPending with
          justifications := [{ exJust with
                               status := JustificationStatus.APPROVED,
                               validation_date := some 10, validator_id := some 7 }],
          attendance_records := [{ exRecord with status := AttendanceStatus.EXCLUDED }] }) ∧
    validateJustification exDBPending 7 1 "reject" (some "late") 10 =
      (.ok { exJust with
             status := JustificationStatus.REJECTED, rejection_reason := some "late",
             validation_date := some 10, validator_id := some 7 },
       { exDBPending with
          justifications := [{ exJust with
                               status := JustificationStatus.REJECTED,
                               rejection_reason := some "late",
                               validation_date := some 10, validator_id := some 7 }] }) := by
  have h := validate_justification_on_pending exDBPending 7 1 (some "late") 10
    exJust exRecord exSession rfl rfl rfl rfl rfl rfl
  exact ⟨by simpa using h.1, by simpa using h.2.1⟩

/-- C3, counterexample: in `exDBDecided` justification 1 has already been
decided (status APPROVED, not PENDING), yet a second decide through
`TeacherController.validate_justification` does not fail with BadRequest —
it succeeds and re-mutates the justification (restamping
`validation_date`). -/
theorem redecide_via_validate_justification_succeeds_cex :
    (exDBDecided.justifications.find? (fun x => x.id == 1)).map (fun j => j.status) =
      some JustificationStatus.APPROVED ∧
    (validateJustification exDBDecided 7 1 "approve" none 99).1 =
      .ok { exJust with
            status := JustificationStatus.APPROVED,
            validation_date := some 99, validator_id := some 7 } ∧
    (validateJustification exDBDecided 7 1 "approve" none 99).2 ≠ exDBDecided :=
  ⟨rfl, rfl, by decide⟩

/-- C3, amended: only the decide entry points of `JustificationController`
(`approve_justification` / `reject_justification`) enforce the PENDING
precondition: on a justification whose status is not PENDING they fail with
BadRequest ("Justification is not pending") and mutate nothing — neither the
justification nor its linked attendance record — so a second decide through
them always fails.  `TeacherController.validate_justification` performs no
such check, and a second decide through it succeeds (see the
counterexample). -/
theorem decide_requires_pending
    (db : DB) (jid vid : Nat) (reason : String) (now : Int) (j : Justification)
    (hj : db.justifications.find? (fun x => x.id == jid) = some j)
    (hnp : (j.status == JustificationStatus.PENDING) = false) :
    approveJustification db jid vid now =
      (.error ⟨400, "Justification is not pending"⟩, db) ∧
    rejectJustification db jid vid reason now =
      (.error ⟨400, "Justification is not pending"⟩, db) := by
  constructor <;> simp [approveJustification, rejectJustification, hj, hnp]

/-- Witness for the amended C3 at the concrete state `exDBDecided`, whose
justification 1 is APPROVED: both controller entry points refuse to
re-decide it and leave the store exactly as it was. -/
theorem decide_requires_pending_witness :
    approveJustification exDBDecided 1 7 99 =
      (.error ⟨400, "Justification is not pending"⟩, exDBDecided) ∧
    rejectJustification exDBDecided 1 7 "no" 99 =
      (.error ⟨400, "Justification is not pending"⟩, exDBDecided) :=
  decide_requires_pending exDBDecided 1 7 "no" 99
    { exJust with
      status := JustificationStatus.APPROVED,
      validation_date := some 10, validator_id := some 7 }
    rfl rfl

/-- C6, counterexample: teacher 7 of `exDB` already has the active session 1;
the router rejects a new session with status code 400 (BadRequest,
"You already have an active session."), not 409 (Conflict). -/
theorem duplicate_active_session_not_conflict_cex :
    createClassSessionRoute exDB 7 2 60 0 "XYZ999" 10 =
      (.error ⟨400, "You already have an active session."⟩, exDB) ∧
    (400 : Nat) ≠ 409 :=
  ⟨rfl, by decide⟩

/-- C6, amended: when the calling teacher already has any active session,
the `POST /teachers/sessions` handler fails — with BadRequest 400
("You already have an active session."), not Conflict 409 — and the store is
returned unchanged, so no new session is created. -/
theorem duplicate_active_session_rejected
    (db : DB) (tid mid : Nat) (dur now : Int) (code : String) (nid : Nat)
    (hactive : (db.sessions.filter (fun s => s.teacher_id == tid && s.is_active)).isEmpty = false) :
    createClassSessionRoute db tid mid dur now code nid =
      (.error ⟨400, "You already have an active session."⟩, db) := by
  simp [createClassSessionRoute, hactive]

/-- Witness for the amended C6 at the concrete state `exDB`. -/
theorem duplicate_active_session_rejected_witness :
    createClassSessionRoute exDB 7 2 60 0 "ZZZ111" 10 =
      (.error ⟨400, "You already have an active session."⟩, exDB) :=
  duplicate_active_session_rejected exDB 7 2 60 0 "ZZZ111" 10 rfl

/-- C2 (code bug): in `exDBNoSession` module 2 has exactly one non-excluded
enrollment, yet right after `create_session` succeeds the new session 10 has
zero attendance records — `TeacherController.create_session` never seeds the
ledger, although `StudentController.mark_attendance` 404s on exactly the
records this seeding was supposed to create. -/
theorem create_session_seeds_no_attendance_records :
    (createSession exDBNoSession 7 2 60 0 "XYZ999" 10).1 =
      .ok { id := 10, session_code := "XYZ999", datetime := 0, duration_minutes := 60,
            is_active := true, created_at := 0, module_id := 2, teacher_id := 7,
            teacher_module_id := none } ∧
    ((createSession exDBNoSession 7 2 60 0 "XYZ999" 10).2.attendance_records.filter
        (fun a => a.session_id == 10)).length = 0 ∧
    (exDBNoSession.enrollments.filter (fun e => e.module_id == 2 && !e.is_excluded)).length = 1 :=
  ⟨rfl, rfl, rfl⟩

/-- C7 (confirmed): the computed `attendance_rate` is
`round(present / total * 100, 2)` with `0` when there are no records, the
EXCLUDED records counted in the denominator; over statuses
{PRESENT: 2, ABSENT: 1, EXCLUDED: 1} (total 4) both summary endpoints
report a rate of 50. -/
theorem attendance_rate_formula :
    (∀ db : DB,
      (getAttendanceSummary db).attendance_rate =
        if db.attendance_records.length = 0 then 0
        else roundTo2
          ((db.attendance_records.countP (fun r => r.status == AttendanceStatus.PRESENT) : ℚ) /
            (db.attendance_records.length : ℚ) * 100)) ∧
    (getAttendanceSummary exDBStats).attendance_rate = 50 ∧
    (getAttendanceSummary exDBEmpty).attendance_rate = 0 ∧
    getSessionAttendanceSummary exDBStats 1 =
      .ok { total_students := 4, present := 2, absent := 1, excluded := 1,
            attendance_rate := 50 } := by
  have hgen : ∀ db : DB,
      (getAttendanceSummary db).attendance_rate =
        if db.attendance_records.length = 0 then 0
        else roundTo2
          ((db.attendance_records.countP (fun r => r.status == AttendanceStatus.PRESENT) : ℚ) /
            (db.attendance_records.length : ℚ) * 100) := by
    intro db
    rw [List.countP_eq_length_filter]
    by_cases h : db.attendance_records.length = 0
    · simp [getAttendanceSummary, h]
    · have hpos : 0 < db.attendance_records.length := Nat.pos_of_ne_zero h
      simp [getAttendanceSummary, h, hpos]
  have hcnt : exDBStats.attendance_records.countP
      (fun r => r.status == AttendanceStatus.PRESENT) = 2 := rfl
  have hlen : exDBStats.attendance_records.length = 4 := rfl
  refine ⟨hgen, ?_, rfl, ?_⟩
  · rw [hgen exDBStats, hcnt, hlen]
    norm_num [roundTo2, roundHalfEven]
  · have hform : getSessionAttendanceSummary exDBStats 1 =
        .ok { total_students := 4, present := 2, absent := 1, excluded := 1,
              attendance_rate :=
                if (4 : Nat) > 0 then
                  roundTo2 (((2 : Nat) : ℚ) / ((4 : Nat) : ℚ) * 100) else 0 } := rfl
    rw [hform]
    norm_num [roundTo2, roundHalfEven]

/-- C10 (confirmed): a successful justification submission inserts a new
justification with status PENDING and writes nothing else: the attendance
records — in particular the linked record's status (still ABSENT),
`session_id`, `enrollement_id` and `created_at` — as well as the sessions
and enrollments are untouched. -/
theorem justify_absence_leaves_record_untouched
    (db : DB) (sid arid : Nat) (comment : String) (file_url : Option String)
    (now : Int) (nid : Nat) (st : Student) (a : AttendanceRecord) (e : Enrollment)
    (h1 : db.students.find? (fun x => x.id == sid) = some st)
    (h2 : db.attendance_records.find? (fun x => x.id == arid) = some a)
    (h3 : db.enrollments.find? (fun x => x.id == a.enrollement_id) = some e)
    (h4 : (e.student_id == sid) = true)
    (h5 : (a.status == AttendanceStatus.ABSENT) = true)
    (h6 : db.justifications.find? (fun j => j.attendance_record_id == arid) = none) :
    justifyAbsence db sid arid comment file_url now nid =
      (.ok { id := nid, comment := comment, file_url := file_url,
             status := JustificationStatus.PENDING, created_at := now,
             validation_date := none, rejection_reason := none,
             attendance_record_id := arid, student_id := none, validator_id := none },
       { db with justifications := db.justifications ++
           [{ id := nid, comment := comment, file_url := file_url,
              status := JustificationStatus.PENDING, created_at := now,
              validation_date := none, rejection_reason := none,
              attendance_record_id := arid, student_id := none, validator_id := none }] }) ∧
    (justifyAbsence db sid arid comment file_url now nid).2.attendance_records =
      db.attendance_records ∧
    (justifyAbsence db sid arid comment file_url now nid).2.sessions = db.sessions ∧
    (justifyAbsence db sid arid comment file_url now nid).2.enrollments = db.enrollments := by
  refine ⟨?_, ?_, ?_, ?_⟩ <;> simp [justifyAbsence, h1, h2, h3, h4, h5, h6]

/-- Witness for C10 at the concrete state `exDB`: submitting a justification
for the ABSENT record 1 creates PENDING justification 1 and leaves the
attendance record list exactly `[exRecord]`. -/
theorem justify_absence_leaves_record_untouched_witness :
    justifyAbsence exDB 5 1 "sick" none 3 1 =
      (.ok { id := 1, comment := "sick", file_url := none,
             status := JustificationStatus.PENDING, created_at := 3,
             validation_date := none, rejection_reason := none,
             attendance_record_id := 1, student_id := none, validator_id := none },
       { exDB with justifications :=
           [{ id := 1, comment := "sick", file_url := none,
              status := JustificationStatus.PENDING, created_at := 3,
              validation_date := none, rejection_reason := none,
              attendance_record_id := 1, student_id := none, validator_id := none }] }) := by
  have h := justify_absence_leaves_record_untouched exDB 5 1 "sick" none 3 1
    exStudent exRecord exEnrollment rfl rfl rfl rfl rfl rfl
  simpa using h.1
